import Mathlib

/-!
Verification of the 2016 CEGS N-GRID evaluation scripts (tags.py and
evaluate.py, Python 2) against their natural-language specification.

The relevant Python functions are shallowly embedded below.  Python strings
are Lean strings; the Python 2 string methods upper, lower and strip and the
builtin int are modelled structurally over the underlying character lists so
that concrete instances evaluate inside the kernel.  Numpy floating point
arithmetic in the ordinal-scoring track is idealized over the rationals.
Python exceptions are modelled with Option and Except.
-/

/-! ## Python string primitives -/

/-- Model of the Python 2 string method upper: uppercase every character. -/
def py_upper (s : String) : String := String.mk (s.data.map Char.toUpper)

/-- Model of the Python 2 string method lower: lowercase every character. -/
def py_lower (s : String) : String := String.mk (s.data.map Char.toLower)

/-- Model of the Python 2 string method strip with no argument: drop leading
and trailing whitespace. -/
def py_strip (s : String) : String :=
  String.mk (((s.data.dropWhile Char.isWhitespace).reverse.dropWhile
    Char.isWhitespace).reverse)

/-- Value of a nonempty all-digit character list, none otherwise. -/
def py_digits_val (cs : List Char) : Option Nat :=
  if cs = [] then Option.none
  else if cs.all Char.isDigit then
    Option.some (cs.foldl (fun n c => n * 10 + (c.toNat - 48)) 0)
  else Option.none

/-- Model of the Python builtin int applied to a string: optional surrounding
whitespace, an optional sign, then decimal digits.  A ValueError is modelled
as none. -/
def py_int (s : String) : Option Int :=
  match ((s.data.dropWhile Char.isWhitespace).reverse.dropWhile
      Char.isWhitespace).reverse with
  | '-' :: rest => (py_digits_val rest).map (fun n => -(n : Int))
  | '+' :: rest => (py_digits_val rest).map (fun n => (n : Int))
  | rest => (py_digits_val rest).map (fun n => (n : Int))

/-- Bool test that small is a leading run of big, character by character. -/
def leadingRun : List Char → List Char → Bool
  | [], _ => true
  | _ :: _, [] => false
  | a :: as, b :: bs => a == b && leadingRun as bs

/-- Bool test that small occurs as a contiguous run inside big: the model of
the Python 2 membership operator between two strings, which is substring
containment (the empty string is contained in everything). -/
def subRun : List Char → List Char → Bool
  | small, [] => leadingRun small []
  | small, b :: bs => leadingRun small (b :: bs) || subRun small bs

/-! ## Model of tags.py: the PHITag key, and the fuzzy-end equality policy

A PHITag under comparison carries the four key attributes of tags.py line
268: key = AnnotatorTag.key + ["start", "end", "TYPE"] with
AnnotatorTag.key = ["name"].  All four are strings read from the XML
element. -/

/-- A PHI tag restricted to its key attributes, the data consulted by the
equality and hash policies of tags.py.  The field end_ stands for the
attribute named end in the source, which is a reserved word in Lean. -/
structure PHITag where
  name : String
  start : String
  end_ : String
  TYPE : String
deriving DecidableEq

/-- PHITag._get_key, tags.py lines 270 to 274: the key attribute values,
uppercased, in key order name, start, end, TYPE. -/
def PHITag._get_key (t : PHITag) : List String :=
  [py_upper t.name, py_upper t.start, py_upper t.end_, py_upper t.TYPE]

/-- The values of OrderedDict(zip(self.key, self._get_key())) after popping
the entry for end, in key order: tags.py lines 197 to 201.  In Python 2 the
values method returns a list, so comparing two such lists is elementwise
comparison. -/
def fuzzy_rest (t : PHITag) : List String :=
  [py_upper t.name, py_upper t.start, py_upper t.TYPE]

/-- The function _fuzzy_end__eq__ installed by
AnnotatorTag.fuzzy_end_equality(distance), tags.py lines 196 to 207, for the
PHITag key: pop the uppercased end values from both key dicts, parse them
with int (a ValueError is modelled as none), and report equality of the
remaining value lists together with the end values differing by at most
distance. -/
def _fuzzy_end__eq__ (distance : Int) (self other : PHITag) : Option Bool :=
  match py_int (py_upper self.end_), py_int (py_upper other.end_) with
  | Option.some self_end, Option.some other_end =>
      Option.some (decide (fuzzy_rest self = fuzzy_rest other) &&
        decide (|self_end - other_end| ≤ distance))
  | _, _ => Option.none

/-- Python values appearing in the fuzzy hash tuple: strings, and the
boolean True written over the end slot. -/
inductive HVal where
  | str : String → HVal
  | bool : Bool → HVal
deriving DecidableEq

/-- A fixed hash function on such values.  The Python builtin hash is opaque;
only its functionality (equal tuples hash equally) matters here, so any
concrete function is a faithful model. -/
def hval_hash : HVal → Nat
  | HVal.str s => s.data.foldl (fun h c => h * 31 + c.toNat) 7
  | HVal.bool b => cond b 1 0

/-- The function _fuzzy_end__hash__ installed by
AnnotatorTag.fuzzy_end_equality, tags.py lines 209 to 221, for the PHITag
key: the key dict is built from the uppercased key values, the entry for end
is overwritten in place with True, and the tuple of values is hashed.  Hence
the hashed tuple is (name, start, True, TYPE) with all strings uppercased. -/
def _fuzzy_end__hash__ (t : PHITag) : Nat :=
  [HVal.str (py_upper t.name), HVal.str (py_upper t.start), HVal.bool true,
    HVal.str (py_upper t.TYPE)].foldl (fun h v => h * 1000003 + hval_hash v) 0

/-! ## Model of tags.py: the TYPE validators of the PHI tag variants -/

/-- PHITag.valid_TYPE, tags.py lines 259 to 264. -/
def PHITag_valid_TYPE : List String :=
  ["PATIENT", "DOCTOR", "USERNAME", "PROFESSION", "ROOM",
   "DEPARTMENT", "HOSPITAL", "ORGANIZATION", "STREET", "CITY",
   "STATE", "COUNTRY", "ZIP", "OTHER", "LOCATION-OTHER", "AGE",
   "DATE", "PHONE", "FAX", "EMAIL", "URL", "IPADDR", "SSN",
   "MEDICALRECORD", "HEALTHPLAN", "ACCOUNT", "LICENSE",
   "VEHICLE", "DEVICE", "BIOID", "IDNUM"]

/-- The PHITag TYPE validator, tags.py line 266: v.upper() in
PHITag.valid_TYPE, a list membership test. -/
def PHITag_TYPE_validp (v : String) : Bool := PHITag_valid_TYPE.contains (py_upper v)

/-- NameTag.valid_TYPE, tags.py line 284. -/
def NameTag_valid_TYPE : List String := ["PATIENT", "DOCTOR", "USERNAME"]

/-- The NameTag TYPE validator, tags.py line 286. -/
def NameTag_TYPE_validp (v : String) : Bool := NameTag_valid_TYPE.contains (py_upper v)

/-- ProfessionTag.valid_TYPE, tags.py line 290. -/
def ProfessionTag_valid_TYPE : List String := ["PROFESSION"]

/-- The ProfessionTag TYPE validator, tags.py line 292. -/
def ProfessionTag_TYPE_validp (v : String) : Bool :=
  ProfessionTag_valid_TYPE.contains (py_upper v)

/-- LocationTag.valid_TYPE, tags.py lines 296 to 297. -/
def LocationTag_valid_TYPE : List String :=
  ["ROOM", "DEPARTMENT", "HOSPITAL", "ORGANIZATION", "STREET",
   "CITY", "STATE", "COUNTRY", "ZIP", "LOCATION-OTHER"]

/-- The LocationTag TYPE validator, tags.py line 299. -/
def LocationTag_TYPE_validp (v : String) : Bool :=
  LocationTag_valid_TYPE.contains (py_upper v)

/-- AgeTag.valid_TYPE, tags.py line 303. -/
def AgeTag_valid_TYPE : List String := ["AGE"]

/-- The AgeTag TYPE validator, tags.py line 305. -/
def AgeTag_TYPE_validp (v : String) : Bool := AgeTag_valid_TYPE.contains (py_upper v)

/-- DateTag.valid_TYPE, tags.py line 309. -/
def DateTag_valid_TYPE : List String := ["DATE"]

/-- The DateTag TYPE validator, tags.py line 311. -/
def DateTag_TYPE_validp (v : String) : Bool := DateTag_valid_TYPE.contains (py_upper v)

/-- ContactTag.valid_TYPE, tags.py line 315. -/
def ContactTag_valid_TYPE : List String := ["PHONE", "FAX", "EMAIL", "URL", "IPADDR"]

/-- The ContactTag TYPE validator, tags.py line 317. -/
def ContactTag_TYPE_validp (v : String) : Bool :=
  ContactTag_valid_TYPE.contains (py_upper v)

/-- IDTag.valid_TYPE, tags.py lines 321 to 322. -/
def IDTag_valid_TYPE : List String :=
  ["SSN", "MEDICALRECORD", "HEALTHPLAN", "ACCOUNT",
   "LICENSE", "VEHICLE", "DEVICE", "BIOID", "IDNUM"]

/-- The IDTag TYPE validator, tags.py line 324. -/
def IDTag_TYPE_validp (v : String) : Bool := IDTag_valid_TYPE.contains (py_upper v)

/-- OtherTag.valid_TYPE, tags.py line 328.  Unlike the seven sibling
variants this is the bare STRING OTHER, not a singleton list. -/
def OtherTag_valid_TYPE : String := "OTHER"

/-- The OtherTag TYPE validator, tags.py line 330: v.upper() in
OtherTag.valid_TYPE.  Because valid_TYPE is a string, the Python 2
membership operator here is substring containment, not list membership. -/
def OtherTag_TYPE_validp (v : String) : Bool :=
  subRun (py_upper v).data OtherTag_valid_TYPE.data

/-! ## Model of tags.py: tag construction from an XML element -/

/-- An lxml element as far as tag construction consults it: the element tag
name and its attribute map. -/
structure Element where
  tag : String
  attrib : List (String × String)
deriving DecidableEq

/-- A Python attribute value that is either None or a string. -/
inductive PyVal where
  | none : PyVal
  | str : String → PyVal
deriving DecidableEq

/-- The id field set by Tag.__init__, tags.py lines 40 to 45: the id
attribute of the element, or the empty string when the lookup raises
KeyError. -/
def Tag_init_id (element : Element) : String :=
  match element.attrib.lookup "id" with
  | Option.some v => v
  | Option.none => ""

/-- An AnnotatorTag as constructed by AnnotatorTag.__init__: the name, the id
(a string or None), and the declared attributes docid, start, end and text,
each either set to a string or unset. -/
structure ATag where
  name : String
  id : PyVal
  docid : Option String
  start : Option String
  end_ : Option String
  text : Option String
deriving DecidableEq

/-- AnnotatorTag.__init__, tags.py lines 162 to 185.  After the super call
it sets self.id = None, then for each declared attribute (id, docid, start,
end, text) it copies the value from the element when present (valid or not,
a failed validation only prints a warning), and sets a key attribute absent
from the element to the empty string.  AnnotatorTag.key is ["name"], so no
declared attribute is in the key: an absent attribute stays unset and an
absent id stays None. -/
def AnnotatorTag_init (element : Element) : ATag :=
  { name := element.tag
  , id := match element.attrib.lookup "id" with
          | Option.some v => PyVal.str v
          | Option.none => PyVal.none
  , docid := element.attrib.lookup "docid"
  , start := element.attrib.lookup "start"
  , end_ := element.attrib.lookup "end"
  , text := element.attrib.lookup "text" }

/-- A concrete element with no id attribute. -/
def el0 : Element :=
  Element.mk "DATE" [("start", "0"), ("end", "5"), ("text", "x"), ("TYPE", "DATE")]

/-! ## Model of tags.py: is_valid and validate

Both walk the declared attribute table of the instance.  The table is a list
of attribute names with their validator, the key is a list of attribute
names, and attribute lookup on the instance yields a value or raises
AttributeError, modelled as an Option. -/

/-- Tag.is_valid, tags.py lines 76 to 88: for each declared attribute, an
attribute that is set and fails its validator gives False; an unset
attribute gives False only when it is in the key. -/
def is_valid (attributes : List (String × (PyVal → Bool))) (key : List String)
    (getattr : String → Option PyVal) : Bool :=
  match attributes with
  | [] => true
  | (k, validp) :: rest =>
    match getattr k with
    | Option.some v => if validp v then is_valid rest key getattr else false
    | Option.none => if k ∈ key then false else is_valid rest key getattr

/-- AnnotatorTag.validate, tags.py lines 226 to 237: for each declared
attribute, an attribute that is set and passes its validator continues,
failing gives False; an unset attribute gives False only when it is in the
key. -/
def validate (attributes : List (String × (PyVal → Bool))) (key : List String)
    (getattr : String → Option PyVal) : Bool :=
  match attributes with
  | [] => true
  | (k, validp) :: rest =>
    match getattr k with
    | Option.some v => if validp v then validate rest key getattr else false
    | Option.none => if k ∈ key then false else validate rest key getattr

/-- The condition the specification states for validity of one declared
attribute: if set it passes its validator, and if unset it is not in the
key. -/
def attr_ok (key : List String) (getattr : String → Option PyVal)
    (p : String × (PyVal → Bool)) : Prop :=
  match getattr p.1 with
  | Option.some v => p.2 v = true
  | Option.none => p.1 ∉ key

/-! ## Model of evaluate.py: get_predicate_function -/

/-- The keys of PHITag.tag_types, tags.py lines 333 to 342. -/
def tag_types : List String :=
  ["PHI", "NAME", "PROFESSION", "LOCATION", "AGE", "DATE", "CONTACT", "ID", "OTHER"]

/-- A Python runtime error relevant to get_predicate_function. -/
inductive PyErr where
  | nameError : PyErr
deriving DecidableEq

/-- The attribute resolution step of get_predicate_function, evaluate.py
lines 140 to 174, as called with tag = PHITag.  A value naming a registered
tag variant resolves to the single attribute name.  Any other value reaches
the loop over MEDICAL_TAG_CLASSES, a global that is neither defined nor
imported anywhere in this repository, so Python raises NameError there,
before the zero-candidate warning branch of lines 171 to 174 can run. -/
def resolve_attrs (arg : String) : Except PyErr (List String) :=
  if tag_types.contains arg then Except.ok ["name"]
  else Except.error PyErr.nameError

/-- A tag as consulted by the returned predicate: its name (always set) and
its other string attributes. -/
structure PyTag where
  name : String
  attrs : List (String × String)

/-- Python getattr on the modelled tag: name is always set, the rest come
from the attribute list, and a missing attribute raises AttributeError,
modelled as none. -/
def PyTag.getattr (t : PyTag) (k : String) : Option String :=
  if k = "name" then Option.some t.name else t.attrs.lookup k

/-- The predicate matchp returned by get_predicate_function, evaluate.py
lines 179 to 189, closed over the resolved attribute list and the filter
value: for each resolved attribute, the name attribute matching the value
exactly returns True at once, and otherwise the attribute value is compared
to the filter value lowercased, an AttributeError being passed over. -/
def matchp (attrs : List String) (arg : String) (t : PyTag) : Bool :=
  attrs.any (fun attr =>
    if attr = "name" ∧ t.name = arg then true
    else match t.getattr attr with
      | Option.some v => py_lower v == py_lower arg
      | Option.none => false)

/-! ## Model of evaluate.py: the ordinal scoring track -/

/-- The level2score mapping of evaluate_rdoc, evaluate.py line 290. -/
def level2score : List (String × Nat) :=
  [("ABSENT", 0), ("MILD", 1), ("MODERATE", 2), ("SEVERE", 3)]

/-- The function get_prediction of evaluate_rdoc, evaluate.py lines 293 to
304, restricted to the severity string it extracts from the XML document:
the score attribute is uppercased and stripped, then looked up in
level2score; an unknown value raises the wrong_severity_value exception,
modelled as Except.error. -/
def get_prediction (score : String) : Except Unit Nat :=
  match level2score.lookup (py_strip (py_upper score)) with
  | Option.some n => Except.ok n
  | Option.none => Except.error ()

/-- The function mean_absolute_error of evaluate_rdoc, evaluate.py lines 306
to 309: the average over positions of the absolute difference between system
and gold, numpy float arithmetic idealized over the rationals. -/
def mean_absolute_error (gold system : List Int) : ℚ :=
  (((gold.zip system).map (fun p => ((p.2 - p.1).natAbs : ℚ))).sum) /
    ((gold.zip system).length : ℚ)

/-- One iteration of the loop of compute_score, evaluate.py lines 320 to
342, for a given gold value: filter the zipped gold and system sequences to
the positions whose gold entry equals the value, choose the normalisation
factor 3 for the values 0 and 3 and 2 otherwise, and produce
100 * (1 - MAE / factor).  The branch for the except ValueError of lines 338
to 340 is modelled by the empty-filter case; it is unreachable for a value
drawn from the gold sequence. -/
def score_result (x y : List Int) (score : Int) : ℚ :=
  if ((x.zip y).filter (fun p => p.1 == score)) = [] then 0
  else 100 * (1 - mean_absolute_error
    (((x.zip y).filter (fun p => p.1 == score)).map Prod.fst)
    (((x.zip y).filter (fun p => p.1 == score)).map Prod.snd) /
    (if score = 0 ∨ score = 3 then (3 : ℚ) else 2))

/-- The function compute_score of evaluate_rdoc, evaluate.py lines 311 to
347.  The Python set of gold values is modelled as List.dedup; the set
iteration order does not affect the returned sum.  The first component per
gold value collects the support statistics of line 343: the number of gold
positions with that value, the count of that value in the system sequence,
and the per-value percentage.  The second component is the overall score of
line 346: the sum of the per-value percentages divided by the number of
distinct gold values. -/
def compute_score (x y : List Int) : List (Int × Nat × Nat × ℚ) × ℚ :=
  (x.dedup.map (fun score =>
    (score, ((x.zip y).filter (fun p => p.1 == score)).length, y.count score,
      score_result x y score)),
   (x.dedup.map (fun score => score_result x y score)).sum / (x.dedup.length : ℚ))

/-! ## Definitions modelled from the specification, for the refinement
claims about the ordinal scoring -/

/-- Modelled from the spec: the mean absolute error restricted to the
positions whose gold label equals the value c. -/
def spec_mae (x y : List Int) (c : Int) : ℚ :=
  (((x.zip y).filter (fun p => p.1 == c)).map
      (fun p => ((p.2 - p.1).natAbs : ℚ))).sum /
    ((((x.zip y).filter (fun p => p.1 == c)).map
      (fun p => ((p.2 - p.1).natAbs : ℚ))).length : ℚ)

/-- Modelled from the spec: the worst-case attainable error, 2 for the
interior labels 1 and 2, and 3 for the extreme labels 0 and 3. -/
def spec_norm (c : Int) : ℚ := if c = 1 ∨ c = 2 then 2 else 3

/-- Modelled from the spec: the per-class percentage 100 * (1 - MAE / n). -/
def spec_class_score (x y : List Int) (c : Int) : ℚ :=
  100 * (1 - spec_mae x y c / spec_norm c)

/-- Modelled from the spec: the unweighted mean of the per-class percentages
over the distinct gold values. -/
def spec_overall_score (x y : List Int) : ℚ :=
  ((x.dedup.map (spec_class_score x y)).sum) / ((x.dedup.length : ℚ))

/-! ## Helper lemmas -/

/-- Zipping the two projections of a pair list gives back the list. -/
theorem zip_proj_eq (l : List (Int × Int)) :
    (l.map Prod.fst).zip (l.map Prod.snd) = l := by
  induction l with
  | nil => rfl
  | cons p t ih => simp [ih]

/-- The mean absolute error of the two projections of a pair list, written
directly over the pairs. -/
theorem mean_absolute_error_on_pairs (l : List (Int × Int)) :
    mean_absolute_error (l.map Prod.fst) (l.map Prod.snd) =
      ((l.map (fun p => ((p.2 - p.1).natAbs : ℚ))).sum) / (l.length : ℚ) := by
  unfold mean_absolute_error
  rw [zip_proj_eq]

/-- A value occurring in the gold sequence keeps at least one pair after
filtering the zipped sequences, when the sequences have equal length. -/
theorem filter_zip_ne_nil (x y : List Int) (c : Int) (hlen : x.length = y.length)
    (hc : c ∈ x) : (x.zip y).filter (fun p => p.1 == c) ≠ [] := by
  have hmap : (x.zip y).map Prod.fst = x := List.map_fst_zip x y (le_of_eq hlen)
  rw [← hmap] at hc
  obtain ⟨p, hp, hpc⟩ := List.mem_map.mp hc
  intro hnil
  have hmem : p ∈ (x.zip y).filter (fun q => q.1 == c) :=
    List.mem_filter.mpr ⟨hp, by simp [hpc]⟩
  rw [hnil] at hmem
  exact absurd hmem (List.not_mem_nil p)

/-- Every pair of a list zipped with itself has equal components. -/
theorem zip_self_eq (x : List Int) : ∀ p ∈ x.zip x, p.1 = p.2 := by
  induction x with
  | nil => intro p hp; cases hp
  | cons a as ih =>
    intro p hp
    rw [List.zip_cons_cons] at hp
    rcases List.mem_cons.mp hp with rfl | hp
    · rfl
    · exact ih p hp

/-- If a fuzzy equality test returns True then the key values other than end
agree. -/
theorem fuzzy_eq_true_rest_eq (distance : Int) (a b : PHITag)
    (h : _fuzzy_end__eq__ distance a b = Option.some true) :
    fuzzy_rest a = fuzzy_rest b := by
  unfold _fuzzy_end__eq__ at h
  cases hA : py_int (py_upper a.end_) <;> cases hB : py_int (py_upper b.end_) <;>
    rw [hA, hB] at h <;> simp at h
  exact h.1

/-- The fuzzy hash depends only on the uppercased name, start and TYPE. -/
theorem fuzzy_hash_congr (a b : PHITag) (h1 : py_upper a.name = py_upper b.name)
    (h2 : py_upper a.start = py_upper b.start)
    (h3 : py_upper a.TYPE = py_upper b.TYPE) :
    _fuzzy_end__hash__ a = _fuzzy_end__hash__ b := by
  unfold _fuzzy_end__hash__
  rw [h1, h2, h3]

/-! ## Claim theorems -/

/-- C1: under the boundary-tolerant policy installed by
AnnotatorTag.fuzzy_end_equality(d) with non-negative tolerance d, two tags
whose end key attributes parse as integers compare equal exactly when every
key attribute except end matches after case normalization and the end values
differ by at most d; in particular tags differing only in end by more than
d, or differing in another key attribute, are not equal. -/
theorem fuzzy_end_equality_iff (distance : Int) (_hd : 0 ≤ distance)
    (a b : PHITag) (ea eb : Int)
    (ha : py_int (py_upper a.end_) = Option.some ea)
    (hb : py_int (py_upper b.end_) = Option.some eb) :
    _fuzzy_end__eq__ distance a b = Option.some true ↔
      (py_upper a.name = py_upper b.name ∧ py_upper a.start = py_upper b.start ∧
       py_upper a.TYPE = py_upper b.TYPE ∧ |ea - eb| ≤ distance) := by
  unfold _fuzzy_end__eq__
  rw [ha, hb]
  simp [fuzzy_rest, and_assoc]

/-- Witness for C1 at a concrete pair of tags: tolerance 2, end values 15
and 17, other key attributes equal up to case. -/
theorem fuzzy_end_equality_iff_witness :
    _fuzzy_end__eq__ 2 (PHITag.mk "PHI" "10" "15" "DATE")
        (PHITag.mk "phi" "10" "17" "date") = Option.some true ↔
      (py_upper "PHI" = py_upper "phi" ∧ py_upper "10" = py_upper "10" ∧
       py_upper "DATE" = py_upper "date" ∧ |(15 : Int) - 17| ≤ 2) :=
  fuzzy_end_equality_iff 2 (by decide) (PHITag.mk "PHI" "10" "15" "DATE")
    (PHITag.mk "phi" "10" "17" "date") 15 17 (by decide) (by decide)

/-- C2: under the boundary-tolerant policy the hash ignores the end value:
two tags whose key attributes other than end agree after case normalization
hash equally whatever their end values, and consequently fuzzy equality of
two tags implies equality of their hashes. -/
theorem fuzzy_end_hash_consistency :
    (∀ a b : PHITag, py_upper a.name = py_upper b.name →
        py_upper a.start = py_upper b.start → py_upper a.TYPE = py_upper b.TYPE →
        _fuzzy_end__hash__ a = _fuzzy_end__hash__ b) ∧
    (∀ (distance : Int) (a b : PHITag),
        _fuzzy_end__eq__ distance a b = Option.some true →
        _fuzzy_end__hash__ a = _fuzzy_end__hash__ b) := by
  refine ⟨fuzzy_hash_congr, ?_⟩
  intro distance a b h
  have hr := fuzzy_eq_true_rest_eq distance a b h
  simp only [fuzzy_rest, List.cons.injEq, and_true] at hr
  exact fuzzy_hash_congr a b hr.1 hr.2.1 hr.2.2

/-- Witness for C2 at concrete tags: end values 15 and 999 hash equally, and
a fuzzy-equal pair hashes equally. -/
theorem fuzzy_end_hash_consistency_witness :
    _fuzzy_end__hash__ (PHITag.mk "PHI" "10" "15" "DATE") =
      _fuzzy_end__hash__ (PHITag.mk "phi" "10" "999" "date") :=
  fuzzy_end_hash_consistency.1 (PHITag.mk "PHI" "10" "15" "DATE")
    (PHITag.mk "phi" "10" "999" "date") (by decide) (by decide) (by decide)

/-- C6: code bug.  The claim states that every PHI variant validator accepts
a value exactly when its uppercase form is among the listed legal TYPE
strings, and that the OtherTag validator accepts exactly OTHER.  Because
OtherTag.valid_TYPE is the bare string OTHER rather than a list, the Python
membership test is substring containment: the validator also accepts HE,
whose uppercase form is not the value OTHER. -/
theorem otherTag_accepts_non_OTHER :
    OtherTag_TYPE_validp "HE" = true ∧ py_upper "HE" ≠ "OTHER" := by
  exact ⟨by decide, by decide⟩

/-- C7 counterexample: for the concrete element el0, which has no id
attribute, the constructed AnnotatorTag id field is None, not the empty
string the claim states. -/
theorem annotatorTag_missing_id_counterexample :
    el0.attrib.lookup "id" = Option.none ∧
      (AnnotatorTag_init el0).id ≠ PyVal.str "" := by
  exact ⟨by decide, by decide⟩

/-- C7 amended: for every source element lacking an id attribute, the base
Tag constructor sets id to the empty string, but AnnotatorTag.__init__ (and
with it every subtype sharing the constructor) overrides id to None and
leaves it None. -/
theorem annotatorTag_missing_id_none (element : Element)
    (h : element.attrib.lookup "id" = Option.none) :
    Tag_init_id element = "" ∧ (AnnotatorTag_init element).id = PyVal.none := by
  unfold Tag_init_id AnnotatorTag_init
  rw [h]
  exact ⟨rfl, rfl⟩

/-- Witness for C7 at the concrete element el0. -/
theorem annotatorTag_missing_id_none_witness :
    Tag_init_id el0 = "" ∧ (AnnotatorTag_init el0).id = PyVal.none :=
  annotatorTag_missing_id_none el0 (by decide)

/-- The two validity walks of tags.py compute the same boolean on every
attribute table, key and instance. -/
theorem valid_fns_agree (attributes : List (String × (PyVal → Bool)))
    (key : List String) (getattr : String → Option PyVal) :
    is_valid attributes key getattr = validate attributes key getattr := by
  induction attributes with
  | nil => rfl
  | cons kp rest ih =>
    obtain ⟨k, validp⟩ := kp
    simp only [is_valid, validate]
    cases getattr k with
    | some v => split_ifs <;> simp [ih]
    | none => split_ifs <;> simp [ih]

/-- The validity walk returns true exactly when every declared attribute
satisfies the per-attribute condition of the specification. -/
theorem valid_true_iff (attributes : List (String × (PyVal → Bool)))
    (key : List String) (getattr : String → Option PyVal) :
    is_valid attributes key getattr = true ↔
      ∀ p ∈ attributes, attr_ok key getattr p := by
  induction attributes with
  | nil => simp [is_valid]
  | cons kp rest ih =>
    obtain ⟨k, validp⟩ := kp
    simp only [is_valid, List.forall_mem_cons]
    cases hgk : getattr k with
    | some v =>
      by_cases hvp : validp v = true
      · simp [hgk, hvp, ih, attr_ok]
      · simp [hgk, hvp, attr_ok]
    | none =>
      by_cases hk : k ∈ key
      · simp [hgk, hk, attr_ok]
      · simp [hgk, hk, ih, attr_ok]

/-- C8: for every attribute table, key and constructed instance, is_valid
and validate return the same boolean, and that boolean is true exactly when
every declared attribute that is set passes its validator and no key
attribute is unset; an unset non-key attribute fails neither. -/
theorem is_valid_eq_validate (attributes : List (String × (PyVal → Bool)))
    (key : List String) (getattr : String → Option PyVal) :
    is_valid attributes key getattr = validate attributes key getattr ∧
      (is_valid attributes key getattr = true ↔
        ∀ p ∈ attributes, attr_ok key getattr p) :=
  ⟨valid_fns_agree attributes key getattr, valid_true_iff attributes key getattr⟩

/-- C9: in the ordinal track, get_prediction maps the normalized severity
label through ABSENT to 0, MILD to 1, MODERATE to 2 and SEVERE to 3, and it
raises (Except.error) exactly when the uppercased and stripped label is none
of those four values. -/
theorem get_prediction_spec (score : String) :
    (get_prediction score =
      (if py_strip (py_upper score) = "ABSENT" then Except.ok 0
       else if py_strip (py_upper score) = "MILD" then Except.ok 1
       else if py_strip (py_upper score) = "MODERATE" then Except.ok 2
       else if py_strip (py_upper score) = "SEVERE" then Except.ok 3
       else Except.error ())) ∧
    (get_prediction score = Except.error () ↔
      py_strip (py_upper score) ∉
        (["ABSENT", "MILD", "MODERATE", "SEVERE"] : List String)) := by
  unfold get_prediction level2score
  by_cases h1 : py_strip (py_upper score) = "ABSENT"
  · simp [List.lookup, beq_iff_eq, h1]
  · by_cases h2 : py_strip (py_upper score) = "MILD"
    · simp [List.lookup, beq_iff_eq, h1, h2]
    · by_cases h3 : py_strip (py_upper score) = "MODERATE"
      · simp [List.lookup, beq_iff_eq, h1, h2, h3]
      · by_cases h4 : py_strip (py_upper score) = "SEVERE"
        · simp [List.lookup, beq_iff_eq, h1, h2, h3, h4]
        · have e1 := beq_eq_false_iff_ne.mpr h1
          have e2 := beq_eq_false_iff_ne.mpr h2
          have e3 := beq_eq_false_iff_ne.mpr h3
          have e4 := beq_eq_false_iff_ne.mpr h4
          simp [List.lookup, e1, e2, e3, e4, h1, h2, h3, h4]

/-- C4: code bug.  The claim states that a filter value resolving to zero
candidate attributes yields a printed warning and an always-true predicate
and never raises.  In this repository the resolution step raises NameError
for every value that does not name a registered tag variant, because the
class list MEDICAL_TAG_CLASSES it scans is undefined; the warning branch is
unreachable.  Evaluated here at the value MEDICATION, which resolves to zero
PHI attributes. -/
theorem resolve_attrs_name_error :
    resolve_attrs "MEDICATION" = Except.error PyErr.nameError := by
  rfl

/-- One resolved attribute contributes a match exactly when the tag has that
attribute set to a value equal to the filter value after lowercasing.  The
special exact-equality shortcut for the name attribute is absorbed by the
case-insensitive comparison the fall-through branch performs on it. -/
theorem matchp_elem (arg : String) (t : PyTag) (a : String) :
    ((if a = "name" ∧ t.name = arg then true
      else match t.getattr a with
        | Option.some v => py_lower v == py_lower arg
        | Option.none => false) = true) ↔
      ∃ v, t.getattr a = Option.some v ∧ py_lower v = py_lower arg := by
  split_ifs with hc
  · obtain ⟨rfl, rfl⟩ := hc
    simp [PyTag.getattr]
  · cases hg : t.getattr a with
    | some v => simp [hg, beq_iff_eq]
    | none => simp [hg]

/-- C5: for every filter value that resolves to at least one candidate
attribute, the returned predicate accepts a tag exactly when at least one
resolved attribute of the tag equals the value under case-insensitive
comparison; the resolved attribute may be the tag name, the category. -/
theorem matchp_resolved_iff (arg : String) (res : List String) (t : PyTag)
    (_h : resolve_attrs arg = Except.ok res) :
    (matchp res arg t = true ↔
      ∃ a ∈ res, ∃ v, t.getattr a = Option.some v ∧
        py_lower v = py_lower arg) := by
  unfold matchp
  rw [List.any_eq_true]
  constructor
  · rintro ⟨a, ha, hf⟩
    exact ⟨a, ha, (matchp_elem arg t a).mp hf⟩
  · rintro ⟨a, ha, hv⟩
    exact ⟨a, ha, (matchp_elem arg t a).mpr hv⟩

/-- Witness for C5: the value PHI resolves to the name attribute, and a tag
named phi is accepted case-insensitively. -/
theorem matchp_resolved_iff_witness :
    matchp ["name"] "PHI" (PyTag.mk "phi" []) = true ↔
      ∃ a ∈ (["name"] : List String), ∃ v,
        (PyTag.mk "phi" []).getattr a = Option.some v ∧
          py_lower v = py_lower "PHI" :=
  matchp_resolved_iff "PHI" ["name"] (PyTag.mk "phi" []) (by rfl)

/-- The loop body of compute_score equals the per-class formula of the
specification for every value of the gold sequence, when the sequences have
equal length and the gold values lie on the 0 to 3 scale. -/
theorem score_result_eq_spec (x y : List Int) (c : Int)
    (hlen : x.length = y.length) (hc : c ∈ x)
    (hc4 : c = 0 ∨ c = 1 ∨ c = 2 ∨ c = 3) :
    score_result x y c = spec_class_score x y c := by
  unfold score_result spec_class_score spec_mae spec_norm
  rw [if_neg (filter_zip_ne_nil x y c hlen hc), mean_absolute_error_on_pairs,
    List.length_map]
  have hnf : (if c = 0 ∨ c = 3 then (3 : ℚ) else 2) =
      (if c = 1 ∨ c = 2 then (2 : ℚ) else 3) := by
    rcases hc4 with rfl | rfl | rfl | rfl <;> norm_num
  rw [hnf]

/-- The loop body of compute_score on a system sequence identical to gold
returns 100 for every value of the gold sequence. -/
theorem score_result_self (x : List Int) (c : Int) (hc : c ∈ x) :
    score_result x x c = 100 := by
  unfold score_result
  rw [if_neg (filter_zip_ne_nil x x c rfl hc), mean_absolute_error_on_pairs]
  have hsum : (((x.zip x).filter (fun p => p.1 == c)).map
      (fun p => ((p.2 - p.1).natAbs : ℚ))).sum = 0 := by
    apply List.sum_eq_zero
    intro q hq
    obtain ⟨p, hp, rfl⟩ := List.mem_map.mp hq
    have := zip_self_eq x p (List.mem_filter.mp hp).1
    simp [this]
  rw [hsum]
  norm_num

/-- C3: for equal-length label sequences on the 0 to 3 scale, compute_score
returns for each distinct gold value the percentage 100 * (1 - MAE / n) with
the MAE restricted to the positions carrying that gold value and n equal to
3 for the values 0 and 3 and 2 for the values 1 and 2, and returns as
overall score the unweighted mean of these percentages over the distinct
gold values; in particular gold [0, 0, 3, 3] against system [0, 1, 3, 2]
yields 250 / 3 percent (displayed as 83.33 percent) for the classes 0 and 3
and as overall score. -/
theorem compute_score_matches_spec :
    (∀ (x y : List Int), x.length = y.length →
      (∀ v ∈ x, v = 0 ∨ v = 1 ∨ v = 2 ∨ v = 3) →
      (∀ v ∈ y, v = 0 ∨ v = 1 ∨ v = 2 ∨ v = 3) →
      (compute_score x y).1.map (fun q => (q.1, q.2.2.2)) =
        x.dedup.map (fun c => (c, spec_class_score x y c)) ∧
      (compute_score x y).2 = spec_overall_score x y) ∧
    ((compute_score [0, 0, 3, 3] [0, 1, 3, 2]).1 =
      [(0, 2, 1, 250 / 3), (3, 2, 1, 250 / 3)] ∧
     (compute_score [0, 0, 3, 3] [0, 1, 3, 2]).2 = 250 / 3) := by
  constructor
  · intro x y hlen hx _hy
    constructor
    · unfold compute_score
      dsimp only
      rw [List.map_map]
      apply List.map_congr_left
      intro c hcd
      have hc := List.mem_dedup.mp hcd
      simp [Function.comp, score_result_eq_spec x y c hlen hc (hx c hc)]
    · unfold compute_score spec_overall_score
      dsimp only
      congr 1
      apply congrArg List.sum
      apply List.map_congr_left
      intro c hcd
      have hc := List.mem_dedup.mp hcd
      exact score_result_eq_spec x y c hlen hc (hx c hc)
  · constructor
    · norm_num [compute_score, score_result, mean_absolute_error, List.dedup]
    · norm_num [compute_score, score_result, mean_absolute_error, List.dedup]

/-- Witness for C3 at the concrete pair of sequences named by the
specification. -/
theorem compute_score_matches_spec_witness :
    (compute_score [0, 0, 3, 3] [0, 1, 3, 2]).1.map (fun q => (q.1, q.2.2.2)) =
        ([0, 0, 3, 3] : List Int).dedup.map
          (fun c => (c, spec_class_score [0, 0, 3, 3] [0, 1, 3, 2] c)) ∧
      (compute_score [0, 0, 3, 3] [0, 1, 3, 2]).2 =
        spec_overall_score [0, 0, 3, 3] [0, 1, 3, 2] :=
  compute_score_matches_spec.1 [0, 0, 3, 3] [0, 1, 3, 2] (by decide) (by decide)
    (by decide)

/-- C10: a system sequence identical to a non-empty gold sequence on the 0
to 3 scale attains the maximum ordinal score: the overall score is exactly
100 and the per-class percentage is exactly 100 for every class present. -/
theorem compute_score_self_perfect (x : List Int) (hne : x ≠ [])
    (_hx : ∀ v ∈ x, v = 0 ∨ v = 1 ∨ v = 2 ∨ v = 3) :
    (compute_score x x).2 = 100 ∧
      ∀ q ∈ (compute_score x x).1, q.2.2.2 = 100 := by
  constructor
  · unfold compute_score
    dsimp only
    have hmap : x.dedup.map (fun score => score_result x x score) =
        List.replicate x.dedup.length (100 : ℚ) := by
      rw [List.eq_replicate_iff]
      refine ⟨by simp, ?_⟩
      intro b hb
      obtain ⟨c, hcd, rfl⟩ := List.mem_map.mp hb
      exact score_result_self x c (List.mem_dedup.mp hcd)
    rw [hmap, List.sum_replicate, nsmul_eq_mul]
    have hd : x.dedup ≠ [] := fun h => hne ((List.dedup_eq_nil x).mp h)
    have hlen : (x.dedup.length : ℚ) ≠ 0 := by
      rw [ne_eq, Nat.cast_eq_zero, List.length_eq_zero]
      exact hd
    field_simp
  · intro q hq
    unfold compute_score at hq
    dsimp only at hq
    obtain ⟨c, hcd, rfl⟩ := List.mem_map.mp hq
    simpa using score_result_self x c (List.mem_dedup.mp hcd)

/-- Witness for C10 at the concrete sequence holding every label once. -/
theorem compute_score_self_perfect_witness :
    (compute_score [0, 1, 2, 3] [0, 1, 2, 3]).2 = 100 ∧
      ∀ q ∈ (compute_score [0, 1, 2, 3] [0, 1, 2, 3]).1, q.2.2.2 = 100 :=
  compute_score_self_perfect [0, 1, 2, 3] (by decide) (by decide)
